import Mathlib

/-!
Verification of the HydroTools scripts against their specification.

Each Python script is shallowly embedded: geometries become inductive values
over rational coordinates, calls into the geometry library (shapely, geopandas,
rasterio) that compute metric or set-theoretic results are abstracted as
explicit operation records, fallible code returns `Except`, and the batch
drivers become structural recursions over the folder listing.
-/

namespace HydroTools

/-- A coordinate pair, modelling shapely point coordinates with rationals. -/
abbrev Pt : Type := ℚ × ℚ

/-- Shapely geometry values as they occur in these scripts. `collection`
stands for any multi-part geometry carrying a `geoms` attribute other than a
MultiLineString (GeometryCollection, MultiPoint, ...); `point` and
`linestring` have no `geoms` attribute, as in shapely 2.x. -/
inductive PyGeom : Type where
  | point : Pt → PyGeom
  | linestring : List Pt → PyGeom
  | multilinestring : List (List Pt) → PyGeom
  | collection : List PyGeom → PyGeom

/-! ## Align_bankline_direction.py -/

/-- The raw endpoint-to-endpoint vector of `get_direction_vector`
(Align_bankline_direction.py lines 24 to 26): `end_point - start_point`,
reading `line.coords[0]` and `line.coords[-1]`. Shapely LineStrings are
non-empty, so the defaults are never consulted on real inputs. -/
def direction_vector (l : List Pt) : Pt :=
  ((l.getLastD (0, 0)).1 - (l.headD (0, 0)).1,
   (l.getLastD (0, 0)).2 - (l.headD (0, 0)).2)

/-- Planar dot product, the `np.dot` of line 51 on rational vectors. -/
def dotQ (v w : Pt) : ℚ := v.1 * w.1 + v.2 * w.2

/-- Euclidean norm of line 27, `np.linalg.norm`. -/
noncomputable def normR (v : Pt) : ℝ := Real.sqrt ((v.1 : ℝ) ^ 2 + (v.2 : ℝ) ^ 2)

/-- `get_direction_vector` (lines 12 to 32), with the intended numpy binding:
the normalized direction vector, or `(0, 0)` when the norm is zero. The
`norm == 0` test of line 29 holds exactly when the raw vector is `(0, 0)`
(lemma `normR_eq_zero_iff`). -/
noncomputable def get_direction_vector (l : List Pt) : ℝ × ℝ :=
  let v := direction_vector l
  if v = (0, 0) then (0, 0)
  else ((v.1 : ℝ) / normR v, (v.2 : ℝ) / normR v)

/-- The dot product of the two normalized direction vectors computed by
`is_same_direction` (line 51). -/
noncomputable def dot_normalized (l1 l2 : List Pt) : ℝ :=
  (get_direction_vector l1).1 * (get_direction_vector l2).1 +
    (get_direction_vector l1).2 * (get_direction_vector l2).2

/-- `is_same_direction` (lines 34 to 53), executable form: the sign of the dot
product of the raw direction vectors. Lemma `is_same_direction_iff` proves
this Boolean equal to the source's test `np.dot(dir1, dir2) > 0` on the
normalized vectors, so no information is lost by avoiding the square roots. -/
def is_same_direction (l1 l2 : List Pt) : Bool :=
  decide (0 < dotQ (direction_vector l1) (direction_vector l2))

/-- `align_direction` (lines 55 to 74), with the intended numpy binding:
return `line2` unchanged when the directions agree, otherwise
`LineString(line2.coords[::-1])`, the reversed coordinate sequence. -/
def align_direction (l1 l2 : List Pt) : List Pt :=
  if is_same_direction l1 l2 then l2 else l2.reverse

/-- The global names bound at module level in Align_bankline_direction.py
(lines 1 to 4). Note line 4 reads `import numpy as n`: the module binds the
name `n`, not `np`. -/
def align_module_bindings : List String :=
  ["os", "gpd", "LineString", "MultiLineString", "n"]

/-- Python name resolution for the global `np` referenced at lines 24, 25, 27
and 51 of the source. -/
def align_np_defined : Bool := align_module_bindings.contains "np"

/-- The message of the exception Python raises when `np` is referenced. -/
def nameErrorNp : String := "NameError: name np is not defined"

/-- `is_same_direction` as executed: the first evaluation of `np.array` in
`get_direction_vector` looks up the global `np`, which is unbound because
numpy was imported under the name `n`. -/
def is_same_direction_run (l1 l2 : List Pt) : Except String Bool :=
  if align_np_defined then Except.ok (is_same_direction l1 l2)
  else Except.error nameErrorNp

/-- `align_direction` as executed: propagates the NameError of
`is_same_direction_run`. -/
def align_direction_run (l1 l2 : List Pt) : Except String (List Pt) := do
  let same ← is_same_direction_run l1 l2
  if same then return l2 else return l2.reverse

/-- `convert_to_linestring` (lines 76 to 101): a LineString is returned as is,
a MultiLineString has the coordinates of its parts concatenated, and any
other geometry type raises ValueError. -/
def convert_to_linestring : PyGeom → Except String (List Pt)
  | PyGeom.linestring l => Except.ok l
  | PyGeom.multilinestring ls => Except.ok ls.flatten
  | _ => Except.error "ValueError: Unsupported geometry type"

/-- `process_lines` (lines 103 to 120): convert both geometries, then align
the second with the first. The alignment arithmetic uses the intended numpy
semantics; the name-resolution failure of the source is modelled separately
by `align_direction_run` and settled with claim C1. -/
def process_lines (g1 g2 : PyGeom) : Except String (List Pt) := do
  let l1 ← convert_to_linestring g1
  let l2 ← convert_to_linestring g2
  return align_direction l1 l2

/-- Python `str.endswith`, modelled on the character lists of the two
strings. -/
def pyEndsWith (s ext : String) : Bool := ext.data.isSuffixOf s.data

/-- The message of the pandas exception raised by an out-of-bounds
`.iloc` access. -/
def indexErr : String := "IndexError: single positional indexer is out-of-bounds"

/-- `gdf.geometry.iloc[i]`: positional access that raises IndexError when the
frame has too few rows. -/
def geom_iloc (gdf : List PyGeom) (i : ℕ) : Except String PyGeom :=
  match gdf.get? i with
  | some g => Except.ok g
  | none => Except.error indexErr

/-- `process_shapefiles` (lines 122 to 163): take the first river geometry and
the first two bankline geometries, align both banklines with the centerline,
and write the updated banklines file. Returns the pair of aligned banklines
that is written. A banklines file with fewer than two geometries raises
IndexError at `banklines_gdf.geometry.iloc[1]`. -/
def process_shapefiles (river banklines : List PyGeom) :
    Except String (List Pt × List Pt) := do
  let river_line ← geom_iloc river 0
  let bankline1 ← geom_iloc banklines 0
  let bankline2 ← geom_iloc banklines 1
  let a1 ← process_lines river_line bankline1
  let a2 ← process_lines river_line bankline2
  return (a1, a2)

/-- `batch_process_shapefiles` (lines 165 to 191): loop over the river folder
listing; for each `.shp` name whose companion banklines file exists (the
filename munging and the `os.path.exists` test are absorbed into `lookup`),
run `process_shapefiles` with no try/except around it. The result is the list
of river filenames processed to completion together with the uncaught
exception, if one aborted the loop. -/
def batch_process_shapefiles (lookup : String → Option (List PyGeom)) :
    List (String × List PyGeom) → List String × Option String
  | [] => ([], none)
  | (name, river) :: rest =>
    if pyEndsWith name ".shp" then
      match lookup name with
      | none => batch_process_shapefiles lookup rest
      | some banklines =>
        match process_shapefiles river banklines with
        | Except.error e => ([], some e)
        | Except.ok _ =>
          let r := batch_process_shapefiles lookup rest
          (name :: r.1, r.2)
    else batch_process_shapefiles lookup rest

/-- The river filenames of a listing segment that the batch loop of
Align_bankline_direction.py processes: the `.shp` entries whose companion
banklines file exists. -/
def processed_river_names (lookup : String → Option (List PyGeom))
    (files : List (String × List PyGeom)) : List String :=
  files.filterMap (fun p =>
    if pyEndsWith p.1 ".shp" && (lookup p.1).isSome then some p.1 else none)

/-! ## Check_proj_all_shapefiles_in_folder_and_reproject.py -/

/-- A coordinate reference system tag as pyproj exposes it: `to_epsg()` may
itself be undetermined. -/
structure PyCRS : Type where
  epsg : Option ℤ

/-- A feature table read by geopandas, reduced to the parts this script
inspects: its CRS tag and an opaque payload standing for the features. -/
structure RGdf : Type where
  crs : Option PyCRS
  payload : ℕ

/-- The outcome the loop body of `reproject_shapefiles` produces for one
shapefile: a reprojected file written under a new name, a message that the
file already is in the target system, a message that the CRS is undefined, or
a caught exception printed as an error message. -/
inductive ReprojOutcome : Type where
  | written : String → RGdf → ReprojOutcome
  | alreadyTarget : ReprojOutcome
  | noCrs : ReprojOutcome
  | caught : String → ReprojOutcome

/-- The try block of `reproject_shapefiles`
(Check_proj_all_shapefiles_in_folder_and_reproject.py lines 22 to 46) for one
file: read it (any exception of the block is the `Except.error` case), then
compare `gdf.crs.to_epsg()` against the target EPSG code; on a difference,
reproject (`to_crs`, abstracted) and write `reprojected_` plus the original
name; on a match or an undefined CRS only print. -/
def reproject_one (to_crs : RGdf → ℤ → RGdf) (target : ℤ) (name : String)
    (r : Except String RGdf) : ReprojOutcome :=
  match r with
  | Except.error e => ReprojOutcome.caught e
  | Except.ok gdf =>
    match gdf.crs with
    | none => ReprojOutcome.noCrs
    | some c =>
      if c.epsg ≠ some target then
        ReprojOutcome.written ("reprojected_" ++ name) (to_crs gdf target)
      else ReprojOutcome.alreadyTarget

/-- `reproject_shapefiles` (lines 19 to 46): filter the folder listing to
`.shp` names and run the per-file try block on each; the except clause makes
every iteration produce an outcome, so the loop always reaches the next
file. -/
def reproject_shapefiles (to_crs : RGdf → ℤ → RGdf) (target : ℤ) :
    List (String × Except String RGdf) → List (String × ReprojOutcome)
  | [] => []
  | (name, r) :: rest =>
    if pyEndsWith name ".shp" then
      (name, reproject_one to_crs target name r) ::
        reproject_shapefiles to_crs target rest
    else reproject_shapefiles to_crs target rest

/-- The name of the file `reproject_one` writes, if any. -/
def reproj_write : ReprojOutcome → Option String
  | ReprojOutcome.written n _ => some n
  | _ => none

/-! ## Minimum_distacne_Bankline.py -/

/-- The geometry library operations `find_nearby_segments` and
`process_shapefile` delegate to shapely, taken as abstract operations:
`interpolate line t` is `line.interpolate(t, normalized=True)`, `nearestOn p
line` is `nearest_points(p, line)[1]`, `distPP` is point-to-point distance,
`distGG` is `line1.distance(line2)`, and `bufferIntersect p d line` is
`p.buffer(d).intersection(line)`. -/
structure GeoOps : Type where
  interpolate : PyGeom → ℚ → Pt
  nearestOn : Pt → PyGeom → Pt
  distPP : Pt → Pt → ℚ
  distGG : PyGeom → PyGeom → ℚ
  bufferIntersect : Pt → ℚ → PyGeom → PyGeom

/-- The `line.geoms` splitting of lines 50 and 51: a MultiLineString is
replaced by its parts, anything else is handled as a single part. -/
def line_parts : PyGeom → List PyGeom
  | PyGeom.multilinestring ls => ls.map PyGeom.linestring
  | g => [g]

/-- `np.linspace(0, 1, 100000)` of line 55: one hundred thousand evenly
spaced sample positions from 0 to 1 inclusive. -/
def pySamples : List ℚ :=
  List.map (fun k : ℕ => (k : ℚ) / 99999) (List.range 100000)

/-- The append logic of lines 71 to 79: a LineString intersection result is
appended whole, a MultiLineString is extended part by part, and any other
geometry type is dropped. -/
def seg_append : PyGeom → List PyGeom
  | PyGeom.linestring l => [PyGeom.linestring l]
  | PyGeom.multilinestring ls => ls.map PyGeom.linestring
  | _ => []

/-- The distance computed for one sample position (lines 56 to 58): distance
from the interpolated point on the first part to its nearest point on the
second part. -/
def sample_dist (ops : GeoOps) (p1 p2 : PyGeom) (i : ℚ) : ℚ :=
  ops.distPP (ops.interpolate p1 i) (ops.nearestOn (ops.interpolate p1 i) p2)

/-- The loop body of lines 56 to 79 for one sample position: when the
nearest-point distance is under the threshold, buffer both points by the
threshold, intersect the buffers with the respective parts, and collect the
line results; otherwise contribute nothing. -/
def sample_contrib (ops : GeoOps) (t : ℚ) (p1 p2 : PyGeom) (i : ℚ) :
    List PyGeom :=
  let point1 := ops.interpolate p1 i
  let nearest_point2 := ops.nearestOn point1 p2
  if ops.distPP point1 nearest_point2 < t then
    seg_append (ops.bufferIntersect point1 t p1) ++
      seg_append (ops.bufferIntersect nearest_point2 t p2)
  else []

/-- `find_nearby_segments` (lines 7 to 81): for every pair of parts of the two
input lines and every one of the 100000 sample positions, append the
contribution of that sample to the result list. -/
def find_nearby_segments (ops : GeoOps) (line1 line2 : PyGeom) (threshold : ℚ) :
    List PyGeom :=
  (line_parts line1).flatMap (fun p1 =>
    (line_parts line2).flatMap (fun p2 =>
      pySamples.flatMap (sample_contrib ops threshold p1 p2)))

/-- The ValueError message of line 130. -/
def valueErrTwo : String := "The shapefile must contain exactly two LineString geometries."

/-- The ValueError geopandas raises when `to_file` is called on an empty
GeoDataFrame (line 151 with `near_segments` empty). -/
def emptyWriteErr : String := "ValueError: Cannot write empty DataFrame to file."

/-- `process_shapefile` (lines 83 to 152): raise ValueError unless the input
holds exactly two geometries; compare their minimum distance against the
hardcoded constant 2; at 2 or more only print (`Except.ok none`). Otherwise
run `find_nearby_segments` with the threshold parameter and write the
segments file (`Except.ok (some segments)`) — except that when the segment
list is empty, `segments_gdf.to_file` raises ValueError on the empty
GeoDataFrame, so no output file is created. -/
def process_shapefile (ops : GeoOps) (gdf : List PyGeom) (threshold : ℚ) :
    Except String (Option (List PyGeom)) :=
  match gdf with
  | [line1, line2] =>
    if ops.distGG line1 line2 ≥ 2 then Except.ok none
    else
      let near_segments := find_nearby_segments ops line1 line2 threshold
      if near_segments.isEmpty then Except.error emptyWriteErr
      else Except.ok (some near_segments)
  | _ => Except.error valueErrTwo

/-- The outcome the loop body of `process_all_shapefiles_in_folder` produces
for one shapefile: the completed processing result, or a caught exception
printed as an error message. -/
inductive MinOutcome : Type where
  | done : Option (List PyGeom) → MinOutcome
  | caught : String → MinOutcome

/-- The try body of lines 205 to 207 for one file: read the shapefile (a
read failure is the `Except.error` entry of the listing) and run
`process_shapefile` on it. -/
def min_process_result (ops : GeoOps) (threshold : ℚ)
    (r : Except String (List PyGeom)) : Except String (Option (List PyGeom)) := do
  let gdf ← r
  process_shapefile ops gdf threshold

/-- The try/except of lines 205 to 209 for one file: a raised exception is
caught and printed, anything else completes. -/
def min_outcome (ops : GeoOps) (threshold : ℚ)
    (r : Except String (List PyGeom)) : MinOutcome :=
  match min_process_result ops threshold r with
  | Except.ok w => MinOutcome.done w
  | Except.error e => MinOutcome.caught e

/-- `process_all_shapefiles_in_folder` (lines 154 to 209): loop over the
folder listing; every `.shp` file goes through the per-file try/except, so
each iteration produces an outcome and the loop always reaches the next
file. -/
def process_all_shapefiles_in_folder (ops : GeoOps) (threshold : ℚ) :
    List (String × Except String (List PyGeom)) → List (String × MinOutcome)
  | [] => []
  | (name, r) :: rest =>
    if pyEndsWith name ".shp" then
      (name, min_outcome ops threshold r) ::
        process_all_shapefiles_in_folder ops threshold rest
    else process_all_shapefiles_in_folder ops threshold rest

/-! ## CL_Bankline_intersection_check.py -/

/-- Shapely `is_empty` on the geometry values of this model. -/
def PyGeom.is_empty : PyGeom → Bool
  | PyGeom.point _ => false
  | PyGeom.linestring l => l.isEmpty
  | PyGeom.multilinestring ls => ls.all List.isEmpty
  | PyGeom.collection gs => gs.attach.all (fun g => PyGeom.is_empty g.1)
decreasing_by
  simp only [PyGeom.collection.sizeOf_spec]
  have h := List.sizeOf_lt_of_mem g.2
  omega

/-- The `isinstance(x, Point)` test of lines 84 and 92. -/
def PyGeom.isPoint : PyGeom → Bool
  | PyGeom.point _ => true
  | _ => false

/-- The `geoms` attribute consulted by `hasattr(x, 'geoms')` at lines 86 and
94: multi-part geometries expose their members, Point and LineString have no
such attribute. -/
def geoms_attr : PyGeom → Option (List PyGeom)
  | PyGeom.multilinestring ls => some (ls.map PyGeom.linestring)
  | PyGeom.collection gs => some gs
  | _ => none

/-- The point collection of lines 81 to 95 for one bank line: `none` stands
for `centerline.intersects(bank_line)` being false, `some g` for the
intersection geometry returned by the library. An empty intersection is
skipped; a Point is appended; a multi-part result contributes exactly its
Point members; any other geometry is discarded. -/
def intersection_points_of : Option PyGeom → List PyGeom
  | none => []
  | some g =>
    if g.is_empty then []
    else if g.isPoint then [g]
    else
      match geoms_attr g with
      | some gs => gs.filter PyGeom.isPoint
      | none => []

/-- The intersection points one bankline/centerline file pair accumulates
(lines 79 to 95): the contributions of the two bank lines in order. -/
def process_intersections_pair (inter1 inter2 : Option PyGeom) : List PyGeom :=
  intersection_points_of inter1 ++ intersection_points_of inter2

/-- Line 98: an output shapefile is written exactly when the accumulated
point list is non-empty. -/
def pair_output_written (inter1 inter2 : Option PyGeom) : Bool :=
  !(process_intersections_pair inter1 inter2).isEmpty

/-! ## multilinestring_parts.py -/

/-- One feature of the input shapefile: its geometry and its attribute row
(all values rendered as strings, as the script only interpolates them into
filenames and copies them into the outputs). -/
structure ShFeature : Type where
  geometry : PyGeom
  attributes : List (String × String)

/-- One output shapefile written by the script: its name, the single
LineString it holds, the copied attribute values, and the CRS it is saved
with. -/
structure WriteSh : Type where
  filename : String
  geom : List Pt
  attrs : List (String × String)
  crs : Option PyCRS

/-- Line 92: `attributes.get('GEWAESSER', f"feature_{i+1}")`. -/
def gew_value (attrs : List (String × String)) (i : ℕ) : String :=
  match attrs.lookup "GEWAESSER" with
  | some v => v
  | none => "feature_" ++ toString (i + 1)

/-- Lines 93 to 97: the output filename for part `i`, with the `_bank`
fallback when the first choice already exists on disk (`existing`). -/
def part_filename (existing : String → Bool) (attrs : List (String × String))
    (i : ℕ) : String :=
  let base := gew_value attrs i ++ "_line_" ++ toString (i + 1) ++ ".shp"
  if existing base then
    gew_value attrs i ++ "_line_" ++ toString (i + 1) ++ "_bank.shp"
  else base

/-- `save_linestrings_from_multilinestring` (multilinestring_parts.py lines
25 to 47, executable body lines 81 to 103): for a MultiLineString, write one
shapefile per constituent LineString, each with the feature's attribute
values and the input CRS; for any other geometry print a message and write
nothing. -/
def save_linestrings_from_multilinestring (existing : String → Bool)
    (geometry : PyGeom) (attributes : List (String × String))
    (crs : Option PyCRS) : List WriteSh :=
  match geometry with
  | PyGeom.multilinestring parts =>
    parts.enum.map (fun pr =>
      { filename := part_filename existing attributes pr.1
        geom := pr.2
        attrs := attributes
        crs := crs })
  | _ => []

/-- The module-level loop of lines 120 to 129: every feature whose geometry
is a MultiLineString is passed to `save_linestrings_from_multilinestring`
with the input file's CRS; all other features are skipped with a message. -/
def split_script_writes (existing : String → Bool) (crs : Option PyCRS)
    (features : List ShFeature) : List WriteSh :=
  features.flatMap (fun f =>
    match f.geometry with
    | PyGeom.multilinestring _ =>
      save_linestrings_from_multilinestring existing f.geometry f.attributes crs
    | _ => [])

/-! ## Merge_all_tiff_files_within_a_folder.py -/

/-- The metadata dictionary of a rasterio dataset, with the four keys the
script updates and a remainder (`crs`, `count`, `nodata`) it copies
untouched. -/
structure RMeta : Type where
  driver : String
  height : ℕ
  width : ℕ
  transform : ℤ × ℤ
  crs : ℤ
  count : ℕ
  nodata : Option ℚ

/-- An opened input raster. -/
structure RTiff : Type where
  path : String
  meta : RMeta

/-- The rasterio `merge` routine, abstracted: from a non-empty list of opened
rasters it produces the mosaic array shape `(bands, rows, cols)` and the
output transform. `merge` of an empty list raises IndexError at
`datasets[0]` before either is produced. -/
structure MergeOps : Type where
  mosaicShape : RTiff → List RTiff → ℕ × ℕ × ℕ
  outTransform : RTiff → List RTiff → ℤ × ℤ

/-- The output raster written by `merge_tiffs`. -/
structure WrittenRaster : Type where
  path : String
  meta : RMeta

/-- The message of the exception `rasterio.merge.merge([])` raises. -/
def mergeEmptyErr : String := "IndexError: list index out of range"

/-- `merge_tiffs` (Merge_all_tiff_files_within_a_folder.py lines 8 to 41):
open every input (the loop leaves `src` bound to the last file), merge, copy
`src.meta` and update only driver, height, width and transform from the
mosaic, then write the output. With an empty input list, `merge` raises
before any metadata is read or any output is created. -/
def merge_tiffs (ops : MergeOps) (input_tiffs : List RTiff)
    (output_tiff : String) : Except String WrittenRaster :=
  match input_tiffs with
  | [] => Except.error mergeEmptyErr
  | t :: ts =>
    let shape := ops.mosaicShape t ts
    let src := (t :: ts).getLast (List.cons_ne_nil t ts)
    Except.ok
      { path := output_tiff
        meta :=
          { src.meta with
            driver := "GTiff"
            height := shape.2.1
            width := shape.2.2
            transform := ops.outTransform t ts } }

/-! ## File open/close traces (concurrency and resource model) -/

/-- File events performed on input and output files by the batch scripts. -/
inductive FileEv : Type where
  | openIn : String → FileEv
  | closeIn : String → FileEv
  | mergeEv : FileEv
  | writeOut : String → FileEv
deriving DecidableEq

/-- The set of input files open after one event. -/
def openStep (s : List String) : FileEv → List String
  | FileEv.openIn n => n :: s
  | FileEv.closeIn n => s.erase n
  | _ => s

/-- The set of input files open after a trace of events. -/
def currentlyOpen (tr : List FileEv) : List String := tr.foldl openStep []

/-- The event trace of `merge_tiffs` on a listing of input paths: the loop of
lines 23 to 25 opens every input file first, then `merge` runs and the output
is written; no input file is ever closed. -/
def merge_tiffs_trace (input_tiffs : List String) (output_tiff : String) :
    List FileEv :=
  input_tiffs.map FileEv.openIn ++ [FileEv.mergeEv, FileEv.writeOut output_tiff]

/-- The event trace of `reproject_shapefiles`: per `.shp` file,
`gpd.read_file` opens and closes the input within the call, then the outcome
may write one output file. -/
def reproject_trace (to_crs : RGdf → ℤ → RGdf) (target : ℤ) :
    List (String × Except String RGdf) → List FileEv
  | [] => []
  | (name, r) :: rest =>
    if pyEndsWith name ".shp" then
      (FileEv.openIn name :: FileEv.closeIn name ::
        (match reproject_one to_crs target name r with
         | ReprojOutcome.written n _ => [FileEv.writeOut n]
         | _ => [])) ++ reproject_trace to_crs target rest
    else reproject_trace to_crs target rest

/-! ## Theorems -/

/-- Every geometry collected by the intersection script is a Point. -/
theorem mem_intersection_points_isPoint {o : Option PyGeom} {g : PyGeom}
    (h : g ∈ intersection_points_of o) : g.isPoint = true := by
  match o with
  | none => simp [intersection_points_of] at h
  | some gg =>
    unfold intersection_points_of at h
    cases he : gg.is_empty with
    | true => simp [he] at h
    | false =>
      simp only [he, Bool.false_eq_true, if_false] at h
      cases hp : gg.isPoint with
      | true =>
        simp only [hp, if_true] at h
        rcases List.mem_singleton.mp h with rfl
        exact hp
      | false =>
        simp only [hp, Bool.false_eq_true, if_false] at h
        match hga : geoms_attr gg with
        | some gs =>
          rw [hga] at h
          exact (List.mem_filter.mp h).2
        | none => rw [hga] at h; simp at h

/-- Claim C4: every geometry written to the output intersection shapefile is
a Point (non-point intersection components are discarded), and the output
file is written exactly when at least one Point results. -/
theorem intersection_points_only_c4 :
    ∀ inter1 inter2 : Option PyGeom,
      (∀ g ∈ process_intersections_pair inter1 inter2, g.isPoint = true) ∧
      (pair_output_written inter1 inter2 = true ↔
        process_intersections_pair inter1 inter2 ≠ []) := by
  intro i1 i2
  constructor
  · intro g hg
    rcases List.mem_append.mp hg with h | h
    · exact mem_intersection_points_isPoint h
    · exact mem_intersection_points_isPoint h
  · simp [pair_output_written]

/-- Witness for C4 at a concrete intersection result: a single Point from the
first bank line. -/
theorem intersection_points_only_c4_witness :
    PyGeom.isPoint (PyGeom.point (1, 2)) = true ∧
    (pair_output_written (some (PyGeom.point (1, 2))) none = true ↔
      process_intersections_pair (some (PyGeom.point (1, 2))) none ≠ []) :=
  ⟨(intersection_points_only_c4 (some (PyGeom.point (1, 2))) none).1 _
      (by simp [process_intersections_pair, intersection_points_of,
        PyGeom.is_empty, PyGeom.isPoint]),
   (intersection_points_only_c4 (some (PyGeom.point (1, 2))) none).2⟩

/-- The sample contribution as a guard on the sample distance. -/
theorem sample_contrib_eq (ops : GeoOps) (t : ℚ) (p1 p2 : PyGeom) (i : ℚ) :
    sample_contrib ops t p1 p2 i =
      if sample_dist ops p1 p2 i < t then
        seg_append (ops.bufferIntersect (ops.interpolate p1 i) t p1) ++
          seg_append (ops.bufferIntersect
            (ops.nearestOn (ops.interpolate p1 i) p2) t p2)
      else [] := by
  simp [sample_contrib, sample_dist]

/-- When no sample position comes under the threshold on any pair of parts,
`find_nearby_segments` returns the empty list. -/
theorem find_nearby_segments_eq_nil (ops : GeoOps) (l1 l2 : PyGeom) (t : ℚ)
    (h : ∀ p1 ∈ line_parts l1, ∀ p2 ∈ line_parts l2, ∀ x ∈ pySamples,
      ¬ sample_dist ops p1 p2 x < t) :
    find_nearby_segments ops l1 l2 t = [] := by
  unfold find_nearby_segments
  refine List.flatMap_eq_nil_iff.mpr fun p1 hp1 => ?_
  refine List.flatMap_eq_nil_iff.mpr fun p2 hp2 => ?_
  refine List.flatMap_eq_nil_iff.mpr fun x hx => ?_
  rw [sample_contrib_eq, if_neg (h p1 hp1 p2 hp2 x hx)]

/-- Counterexample to claim C9 as stated: with minimum distance 1 (under the
hardcoded 2) and threshold 0, no sample position qualifies, the segment list
is empty, and writing the empty GeoDataFrame raises ValueError — so no
output shapefile is created although the distance is under 2. The write is
therefore not independent of the threshold parameter. -/
theorem process_shapefile_no_write_under_two_c9 :
    ((⟨fun _ _ => (0, 0), fun _ _ => (0, 0), fun _ _ => 0, fun _ _ => 1,
        fun _ _ _ => PyGeom.point (0, 0)⟩ : GeoOps).distGG
          (PyGeom.linestring [(0, 0), (1, 0)]) (PyGeom.linestring [(0, 1), (1, 1)]) < 2) ∧
    process_shapefile
        (⟨fun _ _ => (0, 0), fun _ _ => (0, 0), fun _ _ => 0, fun _ _ => 1,
          fun _ _ _ => PyGeom.point (0, 0)⟩ : GeoOps)
        [PyGeom.linestring [(0, 0), (1, 0)], PyGeom.linestring [(0, 1), (1, 1)]] 0 =
      Except.error emptyWriteErr ∧
    ¬∃ segs, process_shapefile
        (⟨fun _ _ => (0, 0), fun _ _ => (0, 0), fun _ _ => 0, fun _ _ => 1,
          fun _ _ _ => PyGeom.point (0, 0)⟩ : GeoOps)
        [PyGeom.linestring [(0, 0), (1, 0)], PyGeom.linestring [(0, 1), (1, 1)]] 0 =
      Except.ok (some segs) := by
  have hnil : find_nearby_segments
      (⟨fun _ _ => (0, 0), fun _ _ => (0, 0), fun _ _ => 0, fun _ _ => 1,
        fun _ _ _ => PyGeom.point (0, 0)⟩ : GeoOps)
      (PyGeom.linestring [(0, 0), (1, 0)]) (PyGeom.linestring [(0, 1), (1, 1)]) 0 = [] :=
    find_nearby_segments_eq_nil _ _ _ _ (by intro p1 _ p2 _ x _; norm_num [sample_dist])
  have herr : process_shapefile
      (⟨fun _ _ => (0, 0), fun _ _ => (0, 0), fun _ _ => 0, fun _ _ => 1,
        fun _ _ _ => PyGeom.point (0, 0)⟩ : GeoOps)
      [PyGeom.linestring [(0, 0), (1, 0)], PyGeom.linestring [(0, 1), (1, 1)]] 0 =
      Except.error emptyWriteErr := by
    simp only [process_shapefile]
    rw [if_neg (by norm_num), hnil]
    rfl
  refine ⟨by norm_num, herr, ?_⟩
  rintro ⟨segs, he⟩
  rw [herr] at he
  exact Except.noConfusion he

/-- Claim C9 (amended): for a shapefile with exactly two geometries and any
threshold, `process_shapefile` writes the segments file exactly when the
minimum distance is under the hardcoded constant 2 and the segment
extraction returns at least one segment; at distance 2 or more it only
prints; at distance under 2 with an empty segment list the write of the
empty GeoDataFrame raises ValueError and no output file is created. -/
theorem process_shapefile_writes_iff_c9 :
    ∀ (ops : GeoOps) (g1 g2 : PyGeom) (t : ℚ),
      ((∃ segs, process_shapefile ops [g1, g2] t = Except.ok (some segs)) ↔
        (ops.distGG g1 g2 < 2 ∧ find_nearby_segments ops g1 g2 t ≠ [])) ∧
      (ops.distGG g1 g2 ≥ 2 → process_shapefile ops [g1, g2] t = Except.ok none) ∧
      (ops.distGG g1 g2 < 2 → find_nearby_segments ops g1 g2 t ≠ [] →
        process_shapefile ops [g1, g2] t =
          Except.ok (some (find_nearby_segments ops g1 g2 t))) ∧
      (ops.distGG g1 g2 < 2 → find_nearby_segments ops g1 g2 t = [] →
        process_shapefile ops [g1, g2] t = Except.error emptyWriteErr) := by
  intro ops g1 g2 t
  simp only [process_shapefile]
  by_cases h : ops.distGG g1 g2 ≥ 2
  · rw [if_pos h]
    refine ⟨⟨?_, ?_⟩, fun _ => rfl, ?_, ?_⟩
    · rintro ⟨segs, he⟩
      exact absurd (Except.ok.inj he) (by simp)
    · rintro ⟨hlt, _⟩
      exact absurd hlt (not_lt.mpr h)
    · intro hlt _
      exact absurd hlt (not_lt.mpr h)
    · intro hlt _
      exact absurd hlt (not_lt.mpr h)
  · rw [if_neg h]
    by_cases hseg : (find_nearby_segments ops g1 g2 t).isEmpty
    · have hnil : find_nearby_segments ops g1 g2 t = [] := by
        rwa [List.isEmpty_iff] at hseg
      rw [if_pos hseg]
      refine ⟨⟨?_, ?_⟩, fun hge => absurd hge h, ?_, fun _ _ => rfl⟩
      · rintro ⟨segs, he⟩
        exact Except.noConfusion he
      · rintro ⟨_, hne⟩
        exact absurd hnil hne
      · intro _ hne
        exact absurd hnil hne
    · rw [if_neg hseg]
      have hne : find_nearby_segments ops g1 g2 t ≠ [] := by
        intro hnil
        rw [hnil] at hseg
        exact hseg rfl
      refine ⟨⟨fun _ => ⟨not_le.mp h, hne⟩, fun _ => ⟨_, rfl⟩⟩,
        fun hge => absurd hge h, fun _ _ => rfl, ?_⟩
      intro _ hnil
      exact absurd hnil hne

/-- Witness for C9 at distance 1 and threshold 1 with every sample distance
at 5: the segment list is empty, the write raises, no output is created. -/
theorem process_shapefile_writes_iff_c9_witness :
    process_shapefile
        (⟨fun _ _ => (0, 0), fun _ _ => (0, 0), fun _ _ => 5, fun _ _ => 1,
          fun _ _ _ => PyGeom.point (0, 0)⟩ : GeoOps)
        [PyGeom.linestring [(0, 0), (1, 0)], PyGeom.linestring [(0, 1), (1, 1)]] 1 =
      Except.error emptyWriteErr :=
  (process_shapefile_writes_iff_c9 _ _ _ 1).2.2.2 (by norm_num)
    (find_nearby_segments_eq_nil _ _ _ _
      (by intro p1 _ p2 _ x _; norm_num [sample_dist]))

/-- Claim C10: `merge_tiffs` copies the output metadata from the last input
file, updating only driver, height, width and transform from the mosaic; an
empty input list fails before any output is created, and a non-empty input
list never reaches that failure. -/
theorem merge_tiffs_meta_c10 :
    ∀ (ops : MergeOps) (out : String),
      (merge_tiffs ops [] out = Except.error mergeEmptyErr) ∧
      (∀ (t : RTiff) (ts : List RTiff),
        ∃ w, merge_tiffs ops (t :: ts) out = Except.ok w ∧
          w.path = out ∧
          w.meta.crs = ((t :: ts).getLast (List.cons_ne_nil t ts)).meta.crs ∧
          w.meta.count = ((t :: ts).getLast (List.cons_ne_nil t ts)).meta.count ∧
          w.meta.nodata = ((t :: ts).getLast (List.cons_ne_nil t ts)).meta.nodata ∧
          w.meta.driver = "GTiff" ∧
          w.meta.height = (ops.mosaicShape t ts).2.1 ∧
          w.meta.width = (ops.mosaicShape t ts).2.2 ∧
          w.meta.transform = ops.outTransform t ts) ∧
      (∀ input : List RTiff, input ≠ [] →
        ∃ w, merge_tiffs ops input out = Except.ok w) := by
  intro ops out
  refine ⟨rfl, ?_, ?_⟩
  · intro t ts
    exact ⟨_, rfl, rfl, rfl, rfl, rfl, rfl, rfl, rfl, rfl⟩
  · intro input h
    match input with
    | [] => exact absurd rfl h
    | t :: ts => exact ⟨_, rfl⟩

/-- Witness for C10 at a concrete one-element input list. -/
theorem merge_tiffs_meta_c10_witness :
    ([(⟨"a.tif", ⟨"GTiff", 1, 1, (0, 0), 25832, 1, none⟩⟩ : RTiff)] ≠ []) ∧
    ∃ w, merge_tiffs (⟨fun _ _ => (1, 5, 7), fun _ _ => (2, 3)⟩ : MergeOps)
        [(⟨"a.tif", ⟨"GTiff", 1, 1, (0, 0), 25832, 1, none⟩⟩ : RTiff)] "m.tif" =
      Except.ok w :=
  ⟨by simp,
   (merge_tiffs_meta_c10 (⟨fun _ _ => (1, 5, 7), fun _ _ => (2, 3)⟩ : MergeOps)
      "m.tif").2.2 _ (by simp)⟩

/-- Claim C6: `find_nearby_segments` draws exactly 100000 evenly spaced
normalized sample positions from 0 to 1, contributes buffered-and-intersected
sub-segments only for samples whose nearest-point distance is under the
threshold, and returns the empty list when no sample is under the
threshold. -/
theorem find_nearby_segments_c6 :
    pySamples.length = 100000 ∧
    (∀ (k : ℕ) (h : k < pySamples.length), pySamples.get ⟨k, h⟩ = (k : ℚ) / 99999) ∧
    (∀ (ops : GeoOps) (l1 l2 : PyGeom) (t : ℚ),
      (∀ p1 ∈ line_parts l1, ∀ p2 ∈ line_parts l2, ∀ x ∈ pySamples,
        ¬ sample_dist ops p1 p2 x < t) →
      find_nearby_segments ops l1 l2 t = []) ∧
    (∀ (ops : GeoOps) (l1 l2 : PyGeom) (t : ℚ) (seg : PyGeom),
      seg ∈ find_nearby_segments ops l1 l2 t →
      ∃ p1 ∈ line_parts l1, ∃ p2 ∈ line_parts l2, ∃ x ∈ pySamples,
        sample_dist ops p1 p2 x < t ∧ seg ∈ sample_contrib ops t p1 p2 x) := by
  refine ⟨?_, ?_, ?_, ?_⟩
  · unfold pySamples
    rw [List.length_map, List.length_range]
  · intro k h
    simp only [pySamples, List.get_eq_getElem, List.getElem_map,
      List.getElem_range]
  · exact fun ops l1 l2 t h => find_nearby_segments_eq_nil ops l1 l2 t h
  · intro ops l1 l2 t seg hseg
    unfold find_nearby_segments at hseg
    rcases List.mem_flatMap.mp hseg with ⟨p1, hp1, hseg⟩
    rcases List.mem_flatMap.mp hseg with ⟨p2, hp2, hseg⟩
    rcases List.mem_flatMap.mp hseg with ⟨x, hx, hseg⟩
    by_cases hd : sample_dist ops p1 p2 x < t
    · exact ⟨p1, hp1, p2, hp2, x, hx, hd, hseg⟩
    · rw [sample_contrib_eq, if_neg hd] at hseg
      simp at hseg

/-- Witness for C6: constant operations at distance 5 with threshold 1, so no
sample qualifies and the result is empty. -/
theorem find_nearby_segments_c6_witness :
    find_nearby_segments
      (⟨fun _ _ => (0, 0), fun _ _ => (0, 0), fun _ _ => 5, fun _ _ => 5,
        fun _ _ _ => PyGeom.point (0, 0)⟩ : GeoOps)
      (PyGeom.linestring [(0, 0), (1, 0)]) (PyGeom.linestring [(0, 1), (1, 1)]) 1 = [] :=
  find_nearby_segments_c6.2.2.1 _ _ _ 1
    (by intro p1 _ p2 _ x _; norm_num [sample_dist])

/-- Every `.shp` entry of the folder listing contributes its per-file outcome
to the output of `reproject_shapefiles`. -/
theorem reproject_shapefiles_mem (to_crs : RGdf → ℤ → RGdf) (target : ℤ)
    (folder : List (String × Except String RGdf))
    (p : String × Except String RGdf) (hp : p ∈ folder)
    (hshp : pyEndsWith p.1 ".shp" = true) :
    (p.1, reproject_one to_crs target p.1 p.2) ∈
      reproject_shapefiles to_crs target folder := by
  induction folder with
  | nil => simp at hp
  | cons q rest ih =>
    obtain ⟨qn, qr⟩ := q
    rcases List.mem_cons.mp hp with heq | hmem
    · subst heq
      unfold reproject_shapefiles
      rw [if_pos hshp]
      exact List.mem_cons_self _ _
    · unfold reproject_shapefiles
      by_cases h : pyEndsWith qn ".shp"
      · rw [if_pos h]
        exact List.mem_cons_of_mem _ (ih hmem)
      · rw [if_neg h]
        exact ih hmem

/-- `reproject_shapefiles` visits exactly the `.shp` files of the listing, in
order. -/
theorem reproject_shapefiles_names (to_crs : RGdf → ℤ → RGdf) (target : ℤ)
    (folder : List (String × Except String RGdf)) :
    (reproject_shapefiles to_crs target folder).map Prod.fst =
      (folder.filter (fun p => pyEndsWith p.1 ".shp")).map Prod.fst := by
  induction folder with
  | nil => rfl
  | cons q rest ih =>
    obtain ⟨qn, qr⟩ := q
    by_cases h : pyEndsWith qn ".shp"
    · simp [reproject_shapefiles, List.filter_cons, h, ih]
    · simp [reproject_shapefiles, List.filter_cons, h, ih]

/-- Every `.shp` entry of the folder listing contributes its per-file outcome
to the output of `process_all_shapefiles_in_folder`. -/
theorem process_all_mem (ops : GeoOps) (t : ℚ)
    (folder : List (String × Except String (List PyGeom)))
    (p : String × Except String (List PyGeom)) (hp : p ∈ folder)
    (hshp : pyEndsWith p.1 ".shp" = true) :
    (p.1, min_outcome ops t p.2) ∈ process_all_shapefiles_in_folder ops t folder := by
  induction folder with
  | nil => simp at hp
  | cons q rest ih =>
    obtain ⟨qn, qr⟩ := q
    rcases List.mem_cons.mp hp with heq | hmem
    · subst heq
      unfold process_all_shapefiles_in_folder
      rw [if_pos hshp]
      exact List.mem_cons_self _ _
    · unfold process_all_shapefiles_in_folder
      by_cases h : pyEndsWith qn ".shp"
      · rw [if_pos h]
        exact List.mem_cons_of_mem _ (ih hmem)
      · rw [if_neg h]
        exact ih hmem

/-- `process_all_shapefiles_in_folder` visits exactly the `.shp` files of the
listing, in order. -/
theorem process_all_names (ops : GeoOps) (t : ℚ)
    (folder : List (String × Except String (List PyGeom))) :
    (process_all_shapefiles_in_folder ops t folder).map Prod.fst =
      (folder.filter (fun p => pyEndsWith p.1 ".shp")).map Prod.fst := by
  induction folder with
  | nil => rfl
  | cons q rest ih =>
    obtain ⟨qn, qr⟩ := q
    by_cases h : pyEndsWith qn ".shp"
    · simp [process_all_shapefiles_in_folder, List.filter_cons, h, ih]
    · simp [process_all_shapefiles_in_folder, List.filter_cons, h, ih]

/-- Claim C3: in the CRS-reprojection driver and the proximity-extraction
driver, an exception raised while processing one shapefile is caught and
turned into a printed message, and every file of the listing, the subsequent
ones included, still receives an outcome. -/
theorem drivers_catch_and_continue_c3 :
    (∀ (to_crs : RGdf → ℤ → RGdf) (target : ℤ)
        (folder : List (String × Except String RGdf)),
      ((reproject_shapefiles to_crs target folder).map Prod.fst =
        (folder.filter (fun p => pyEndsWith p.1 ".shp")).map Prod.fst) ∧
      (∀ p ∈ folder, pyEndsWith p.1 ".shp" = true → ∀ e, p.2 = Except.error e →
        (p.1, ReprojOutcome.caught e) ∈ reproject_shapefiles to_crs target folder)) ∧
    (∀ (ops : GeoOps) (t : ℚ)
        (folder : List (String × Except String (List PyGeom))),
      ((process_all_shapefiles_in_folder ops t folder).map Prod.fst =
        (folder.filter (fun p => pyEndsWith p.1 ".shp")).map Prod.fst) ∧
      (∀ p ∈ folder, pyEndsWith p.1 ".shp" = true → ∀ e,
        min_process_result ops t p.2 = Except.error e →
        (p.1, MinOutcome.caught e) ∈ process_all_shapefiles_in_folder ops t folder)) := by
  constructor
  · intro to_crs target folder
    refine ⟨reproject_shapefiles_names to_crs target folder, ?_⟩
    intro p hp hshp e he
    have h := reproject_shapefiles_mem to_crs target folder p hp hshp
    rw [he] at h
    exact h
  · intro ops t folder
    refine ⟨process_all_names ops t folder, ?_⟩
    intro p hp hshp e he
    have h := process_all_mem ops t folder p hp hshp
    rw [min_outcome, he] at h
    exact h

/-- Witness for C3: a listing whose first file raises and whose second file
is still visited by both drivers. -/
theorem drivers_catch_and_continue_c3_witness :
    (("x.shp", ReprojOutcome.caught "read failed") ∈
      reproject_shapefiles (fun g _ => g) 25832
        [("x.shp", Except.error "read failed"),
         ("y.shp", Except.ok ⟨none, 0⟩)]) ∧
    (("x.shp", MinOutcome.caught "read failed") ∈
      process_all_shapefiles_in_folder
        (⟨fun _ _ => (0, 0), fun _ _ => (0, 0), fun _ _ => 0, fun _ _ => 0,
          fun _ _ _ => PyGeom.point (0, 0)⟩ : GeoOps) 2
        [("x.shp", Except.error "read failed"),
         ("y.shp", Except.ok [])]) :=
  ⟨((drivers_catch_and_continue_c3.1 (fun g _ => g) 25832
      [("x.shp", Except.error "read failed"), ("y.shp", Except.ok ⟨none, 0⟩)]).2
      ("x.shp", Except.error "read failed") (by simp) (by decide) "read failed" rfl),
   ((drivers_catch_and_continue_c3.2
      (⟨fun _ _ => (0, 0), fun _ _ => (0, 0), fun _ _ => 0, fun _ _ => 0,
        fun _ _ _ => PyGeom.point (0, 0)⟩ : GeoOps) 2
      [("x.shp", Except.error "read failed"), ("y.shp", Except.ok [])]).2
      ("x.shp", Except.error "read failed") (by simp) (by decide) "read failed" rfl)⟩

/-- Claim C5: `reproject_shapefiles` writes a `reprojected_` file for a
readable shapefile exactly when its CRS tag is defined and its EPSG code
differs from the target; on a match or an undefined CRS nothing is written;
and the per-file logic is applied to every `.shp` file of the listing. -/
theorem reproject_write_iff_c5 :
    ∀ (to_crs : RGdf → ℤ → RGdf) (target : ℤ) (name : String) (gdf : RGdf),
      ((reproj_write (reproject_one to_crs target name (Except.ok gdf)) ≠ none) ↔
        ∃ c, gdf.crs = some c ∧ c.epsg ≠ some target) ∧
      (∀ c, gdf.crs = some c → c.epsg ≠ some target →
        reproject_one to_crs target name (Except.ok gdf) =
          ReprojOutcome.written ("reprojected_" ++ name) (to_crs gdf target)) ∧
      (gdf.crs = none →
        reproject_one to_crs target name (Except.ok gdf) = ReprojOutcome.noCrs) ∧
      (∀ c, gdf.crs = some c → c.epsg = some target →
        reproject_one to_crs target name (Except.ok gdf) =
          ReprojOutcome.alreadyTarget) ∧
      (∀ folder : List (String × Except String RGdf), ∀ p ∈ folder,
        pyEndsWith p.1 ".shp" = true →
        (p.1, reproject_one to_crs target p.1 p.2) ∈
          reproject_shapefiles to_crs target folder) := by
  intro to_crs target name gdf
  refine ⟨?_, ?_, ?_, ?_, fun folder p hp hshp =>
    reproject_shapefiles_mem to_crs target folder p hp hshp⟩
  · match hc : gdf.crs with
    | none => simp [reproj_write, reproject_one, hc]
    | some c =>
      by_cases he : c.epsg ≠ some target
      · simp only [reproject_one, hc, if_pos he]
        simp [reproj_write, he]
      · simp only [reproject_one, hc, if_neg he]
        simp only [not_not] at he
        simp [reproj_write, he]
  · intro c hc hne
    simp only [reproject_one, hc, if_pos hne]
  · intro hc
    simp only [reproject_one, hc]
  · intro c hc he
    simp only [reproject_one, hc, if_neg (show ¬c.epsg ≠ some target by simp [he])]

/-- Witness for C5: a file at EPSG 4326 with target 25832 is written under
the `reprojected_` name. -/
theorem reproject_write_iff_c5_witness :
    reproject_one (fun g _ => g) 25832 "rivers.shp"
        (Except.ok ⟨some ⟨some 4326⟩, 7⟩) =
      ReprojOutcome.written ("reprojected_" ++ "rivers.shp")
        ((fun (g : RGdf) (_ : ℤ) => g) ⟨some ⟨some 4326⟩, 7⟩ 25832) :=
  (reproject_write_iff_c5 (fun g _ => g) 25832 "rivers.shp"
      ⟨some ⟨some 4326⟩, 7⟩).2.1 ⟨some 4326⟩ rfl (by decide)

/-- Folding `openStep` over events that neither open nor close leaves the
open set unchanged. -/
theorem foldl_openStep_neutral (l : List FileEv)
    (h : ∀ e ∈ l, ∀ s, openStep s e = s) :
    ∀ s, l.foldl openStep s = s := by
  induction l with
  | nil => intro s; rfl
  | cons e rest ih =>
    intro s
    rw [List.foldl_cons, h e (List.mem_cons_self e rest) s]
    exact ih (fun x hx s₂ => h x (List.mem_cons_of_mem e hx) s₂) s

/-- The optional write event of one reprojection iteration neither opens nor
closes an input file. -/
theorem reproj_ws_neutral (o : ReprojOutcome) :
    ∀ e ∈ (match o with
           | ReprojOutcome.written n _ => [FileEv.writeOut n]
           | _ => []),
      ∀ s, openStep s e = s := by
  cases o with
  | written n g =>
    intro e he s
    rcases List.mem_singleton.mp he with rfl
    rfl
  | alreadyTarget => intro e he; simp at he
  | noCrs => intro e he; simp at he
  | caught m => intro e he; simp at he

/-- A block that opens one file, closes it, and then only writes, keeps at
most one input file open in every prefix, whatever disciplined trace
follows. -/
theorem currentlyOpen_block_le (n : String) (ws tr : List FileEv)
    (hws : ∀ e ∈ ws, ∀ s, openStep s e = s)
    (htr : ∀ j, (currentlyOpen (tr.take j)).length ≤ 1) (k : ℕ) :
    (currentlyOpen (((FileEv.openIn n :: FileEv.closeIn n :: ws) ++ tr).take k)).length ≤ 1 := by
  match k with
  | 0 => simp [currentlyOpen]
  | 1 => simp [currentlyOpen, openStep]
  | (j + 2) =>
    have h1 : ((FileEv.openIn n :: FileEv.closeIn n :: ws) ++ tr).take (j + 2)
        = FileEv.openIn n :: FileEv.closeIn n :: (ws ++ tr).take j := by
      simp [List.cons_append]
    rw [h1]
    have h2 : currentlyOpen (FileEv.openIn n :: FileEv.closeIn n :: (ws ++ tr).take j)
        = currentlyOpen ((ws ++ tr).take j) := by
      unfold currentlyOpen
      simp [List.foldl_cons, openStep, List.erase_cons_head]
    rw [h2, List.take_append_eq_append_take]
    unfold currentlyOpen
    rw [List.foldl_append,
      foldl_openStep_neutral _ (fun e he => hws e (List.take_subset _ _ he)) _]
    exact htr _

/-- Opening a listing of files in order stacks them all as open. -/
theorem foldl_openStep_opens (files : List String) :
    ∀ acc, List.foldl openStep acc (files.map FileEv.openIn) = files.reverse ++ acc := by
  induction files with
  | nil => intro acc; rfl
  | cons f fs ih =>
    intro acc
    simp only [List.map_cons, List.foldl_cons, openStep, ih, List.reverse_cons,
      List.append_assoc, List.singleton_append]

/-- Counterexample to claim C7 as stated: in the tiff-merge batch script the
second input file is opened while the first is still open, and the first is
never closed at all. -/
theorem merge_tiffs_overlapping_open_c7 :
    (currentlyOpen ((merge_tiffs_trace ["a.tif", "b.tif"] "m.tif").take 2)).length = 2 ∧
    FileEv.closeIn "a.tif" ∉ merge_tiffs_trace ["a.tif", "b.tif"] "m.tif" := by
  constructor
  · rfl
  · decide

/-- Amended claim C7: the per-file shapefile drivers (CRS reprojection shown)
keep at most one input file open at any time, but `merge_tiffs` opens its
whole input listing before merging, so all input files are open
simultaneously. -/
theorem batch_open_discipline_c7 :
    (∀ (to_crs : RGdf → ℤ → RGdf) (target : ℤ)
        (folder : List (String × Except String RGdf)) (k : ℕ),
      (currentlyOpen ((reproject_trace to_crs target folder).take k)).length ≤ 1) ∧
    (∀ (files : List String) (out : String),
      currentlyOpen ((merge_tiffs_trace files out).take files.length) = files.reverse) := by
  constructor
  · intro to_crs target folder
    induction folder with
    | nil => intro k; simp [reproject_trace, currentlyOpen]
    | cons q rest ih =>
      obtain ⟨name, r⟩ := q
      intro k
      unfold reproject_trace
      by_cases h : pyEndsWith name ".shp"
      · rw [if_pos h]
        exact currentlyOpen_block_le name _ _ (reproj_ws_neutral _) ih k
      · rw [if_neg h]
        exact ih k
  · intro files out
    unfold merge_tiffs_trace
    rw [show files.length = (files.map FileEv.openIn).length from
      (List.length_map _ _).symm, List.take_left]
    exact (foldl_openStep_opens files []).trans (List.append_nil _)

/-- Claim C8: a MultiLineString feature produces one output write per
constituent LineString, the i-th write holding the i-th constituent under the
computed filename with the feature's attribute values and the input CRS;
features of any other geometry type produce no write; and the module loop
applies exactly this per-feature logic across the input. -/
theorem split_writes_c8 :
    (∀ (existing : String → Bool) (attrs : List (String × String))
        (crs : Option PyCRS) (parts : List (List Pt)),
      (save_linestrings_from_multilinestring existing
          (PyGeom.multilinestring parts) attrs crs).length = parts.length ∧
      (∀ (i : ℕ) (pt : List Pt), parts.get? i = some pt →
        (save_linestrings_from_multilinestring existing
            (PyGeom.multilinestring parts) attrs crs).get? i =
          some ⟨part_filename existing attrs i, pt, attrs, crs⟩) ∧
      (∀ w ∈ save_linestrings_from_multilinestring existing
          (PyGeom.multilinestring parts) attrs crs,
        w.attrs = attrs ∧ w.crs = crs ∧ w.geom ∈ parts)) ∧
    (∀ (existing : String → Bool) (attrs : List (String × String))
        (crs : Option PyCRS) (g : PyGeom),
      (∀ parts, g ≠ PyGeom.multilinestring parts) →
      save_linestrings_from_multilinestring existing g attrs crs = []) ∧
    (∀ (existing : String → Bool) (crs : Option PyCRS)
        (features : List ShFeature),
      split_script_writes existing crs features =
        features.flatMap (fun f =>
          save_linestrings_from_multilinestring existing f.geometry f.attributes crs)) := by
  refine ⟨?_, ?_, ?_⟩
  · intro existing attrs crs parts
    refine ⟨?_, ?_, ?_⟩
    · simp [save_linestrings_from_multilinestring, List.enum_length]
    · intro i pt hpt
      simp only [save_linestrings_from_multilinestring, List.get?_eq_getElem?,
        List.getElem?_map, List.getElem?_enum]
      rw [List.get?_eq_getElem?] at hpt
      rw [hpt]
      rfl
    · intro w hw
      simp only [save_linestrings_from_multilinestring] at hw
      rcases List.mem_map.mp hw with ⟨pr, hpr, rfl⟩
      rcases List.mem_enumFrom hpr with ⟨h1, h2, h3⟩
      refine ⟨rfl, rfl, ?_⟩
      rw [h3]
      exact List.getElem_mem _
  · intro existing attrs crs g h
    cases g with
    | multilinestring parts => exact absurd rfl (h parts)
    | point p => rfl
    | linestring l => rfl
    | collection gs => rfl
  · intro existing crs features
    unfold split_script_writes
    induction features with
    | nil => rfl
    | cons f rest ih =>
      obtain ⟨g, fattrs⟩ := f
      rw [List.flatMap_cons, List.flatMap_cons, ih]
      cases g with
      | multilinestring parts => rfl
      | point p => rfl
      | linestring l => rfl
      | collection gs => rfl

/-- Witness for C8: one MultiLineString with a single constituent produces
exactly its one write, carrying the attributes and the CRS. -/
theorem split_writes_c8_witness :
    (save_linestrings_from_multilinestring (fun _ => false)
        (PyGeom.multilinestring [[(0, 0), (1, 1)]]) [("GEWAESSER", "rhein")]
        (some ⟨some 25832⟩)).get? 0 =
      some ⟨part_filename (fun _ => false) [("GEWAESSER", "rhein")] 0,
        [(0, 0), (1, 1)], [("GEWAESSER", "rhein")], some ⟨some 25832⟩⟩ :=
  (split_writes_c8.1 (fun _ => false) [("GEWAESSER", "rhein")]
    (some ⟨some 25832⟩) [[(0, 0), (1, 1)]]).2.1 0 [(0, 0), (1, 1)] rfl

/-- The norm of line 27 vanishes exactly on the zero vector, justifying the
executable `v = (0, 0)` test in `get_direction_vector`. -/
theorem normR_eq_zero_iff (v : Pt) : normR v = 0 ↔ v = (0, 0) := by
  unfold normR
  rw [Real.sqrt_eq_zero (by positivity)]
  constructor
  · intro h
    have h1 : (v.1 : ℝ) = 0 := by nlinarith [sq_nonneg (v.1 : ℝ), sq_nonneg (v.2 : ℝ)]
    have h2 : (v.2 : ℝ) = 0 := by nlinarith [sq_nonneg (v.1 : ℝ), sq_nonneg (v.2 : ℝ)]
    have hx : v.1 = 0 := by exact_mod_cast h1
    have hy : v.2 = 0 := by exact_mod_cast h2
    obtain ⟨a, b⟩ := v
    simp only at hx hy
    rw [hx, hy]
  · intro h
    rw [h]
    norm_num

/-- A non-zero direction vector has positive norm. -/
theorem normR_pos (v : Pt) (h : v ≠ (0, 0)) : 0 < normR v := by
  unfold normR
  apply Real.sqrt_pos.mpr
  obtain ⟨x, y⟩ := v
  have hxy : x ≠ 0 ∨ y ≠ 0 := by
    by_contra hc
    push_neg at hc
    exact h (by rw [hc.1, hc.2])
  rcases hxy with hx | hy
  · have hx2 : (x : ℝ) ≠ 0 := by exact_mod_cast hx
    have := pow_two_pos_of_ne_zero hx2
    nlinarith [sq_nonneg (y : ℝ)]
  · have hy2 : (y : ℝ) ≠ 0 := by exact_mod_cast hy
    have := pow_two_pos_of_ne_zero hy2
    nlinarith [sq_nonneg (x : ℝ)]

/-- The dot product of the two normalized direction vectors is the raw dot
product divided by the product of the norms, or zero when either line is
degenerate. -/
theorem dot_normalized_eq (l1 l2 : List Pt) :
    dot_normalized l1 l2 =
      if direction_vector l1 = (0, 0) ∨ direction_vector l2 = (0, 0) then 0
      else ((dotQ (direction_vector l1) (direction_vector l2) : ℚ) : ℝ) /
        (normR (direction_vector l1) * normR (direction_vector l2)) := by
  simp only [dot_normalized, get_direction_vector]
  by_cases hv : direction_vector l1 = (0, 0)
  · rw [if_pos hv, if_pos (Or.inl hv)]
    simp
  · by_cases hw : direction_vector l2 = (0, 0)
    · rw [if_neg hv, if_pos hw, if_pos (Or.inr hw)]
      simp
    · rw [if_neg hv, if_neg hw, if_neg (by push_neg; exact ⟨hv, hw⟩)]
      have hnv := (normR_pos _ hv).ne'
      have hnw := (normR_pos _ hw).ne'
      push_cast [dotQ]
      field_simp

/-- The executable sign test of `is_same_direction` agrees with the source's
test on the normalized vectors: normalization never changes the sign of the
dot product. -/
theorem is_same_direction_iff (l1 l2 : List Pt) :
    is_same_direction l1 l2 = true ↔ 0 < dot_normalized l1 l2 := by
  rw [dot_normalized_eq]
  by_cases hv : direction_vector l1 = (0, 0)
  · rw [if_pos (Or.inl hv)]
    simp [is_same_direction, hv, dotQ]
  · by_cases hw : direction_vector l2 = (0, 0)
    · rw [if_pos (Or.inr hw)]
      simp [is_same_direction, hw, dotQ]
    · rw [if_neg (by push_neg; exact ⟨hv, hw⟩)]
      rw [lt_div_iff₀ (mul_pos (normR_pos _ hv) (normR_pos _ hw)), zero_mul]
      simp only [is_same_direction, decide_eq_true_eq]
      constructor
      · intro h
        exact_mod_cast h
      · intro h
        exact_mod_cast h

/-- Claim C1 (code bug): as written, `align_direction` never returns — its
first numpy call raises NameError because line 4 imports numpy under the
name `n` while the functions reference `np`. Under the intended numpy
binding, the comparison logic does satisfy the claim: `line2` is returned
unchanged when the dot product of the normalized direction vectors is
positive, and reversed otherwise. -/
theorem align_direction_c1 :
    (align_direction_run [(0, 0), (1, 0)] [(0, 1), (1, 1)] =
      Except.error nameErrorNp) ∧
    (∀ l1 l2 : List Pt,
      (0 < dot_normalized l1 l2 → align_direction l1 l2 = l2) ∧
      (dot_normalized l1 l2 ≤ 0 → align_direction l1 l2 = l2.reverse)) := by
  constructor
  · rfl
  · intro l1 l2
    constructor
    · intro h
      unfold align_direction
      rw [if_pos ((is_same_direction_iff l1 l2).mpr h)]
    · intro h
      unfold align_direction
      rw [if_neg (fun hc => absurd ((is_same_direction_iff l1 l2).mp hc)
        (not_lt.mpr h))]

/-- Witness for C1: two west-to-east segments agree in direction, so the
second is returned unchanged by the intended-semantics model. -/
theorem align_direction_c1_witness :
    align_direction [(0, 0), (1, 0)] [(5, 5), (6, 5)] = [(5, 5), (6, 5)] :=
  (align_direction_c1.2 [(0, 0), (1, 0)] [(5, 5), (6, 5)]).1
    ((is_same_direction_iff _ _).mp
      (by norm_num [is_same_direction, direction_vector, dotQ]))

/-- A banklines file with fewer than two geometries makes
`process_shapefiles` raise before any alignment happens. -/
theorem process_shapefiles_short (river banklines : List PyGeom)
    (h : banklines.length < 2) :
    ∃ e, process_shapefiles river banklines = Except.error e := by
  match river with
  | [] => exact ⟨indexErr, rfl⟩
  | r :: rs =>
    match banklines, h with
    | [], _ => exact ⟨indexErr, rfl⟩
    | [b], _ => exact ⟨indexErr, rfl⟩
    | b1 :: b2 :: bs, h => exact absurd h (by simp)

/-- Claim C2: in the bankline-alignment script, a banklines shapefile with
the wrong geometry count raises an error that the batch loop does not catch:
the run aborts and the processed files are exactly the well-formed prefix,
so no file after the malformed one is processed. -/
theorem batch_abort_on_wrong_count_c2 :
    ∀ (lookup : String → Option (List PyGeom))
      (pre rest : List (String × List PyGeom)) (name : String)
      (river banklines : List PyGeom),
      (∀ p ∈ pre, ∀ b, lookup p.1 = some b →
        (process_shapefiles p.2 b).isOk = true) →
      pyEndsWith name ".shp" = true →
      lookup name = some banklines →
      banklines.length < 2 →
      ∃ e, batch_process_shapefiles lookup (pre ++ (name, river) :: rest) =
        (processed_river_names lookup pre, some e) := by
  intro lookup pre rest name river banklines
  induction pre with
  | nil =>
    intro _ hshp hlk hcount
    rcases process_shapefiles_short river banklines hcount with ⟨e, he⟩
    refine ⟨e, ?_⟩
    rw [List.nil_append]
    simp only [batch_process_shapefiles, hshp, if_true, hlk, he]
    rfl
  | cons q pre' ih =>
    intro hpre hshp hlk hcount
    obtain ⟨qn, qr⟩ := q
    have hpre' : ∀ p ∈ pre', ∀ b, lookup p.1 = some b →
        (process_shapefiles p.2 b).isOk = true :=
      fun p hp => hpre p (List.mem_cons_of_mem _ hp)
    rcases ih hpre' hshp hlk hcount with ⟨e, he⟩
    refine ⟨e, ?_⟩
    rw [List.cons_append]
    by_cases hq1 : pyEndsWith qn ".shp"
    · match hlkq : lookup qn with
      | none =>
        simp only [batch_process_shapefiles, hq1, if_true, hlkq, he]
        simp [processed_river_names, List.filterMap_cons, hq1, hlkq]
      | some b =>
        have hq := hpre (qn, qr) (List.mem_cons_self _ _) b hlkq
        match hpv : process_shapefiles qr b with
        | Except.error e2 =>
          rw [hpv] at hq
          simp [Except.isOk, Except.toBool] at hq
        | Except.ok v =>
          simp only [batch_process_shapefiles, hq1, if_true, hlkq, hpv, he]
          simp [processed_river_names, List.filterMap_cons, hq1, hlkq]
    · simp only [batch_process_shapefiles, hq1, Bool.false_eq_true, if_false, he]
      simp [processed_river_names, List.filterMap_cons, hq1]

/-- Witness for C2: the first listing entry is well formed and processed, the
second has a single bankline geometry and aborts the run, the third is never
reached. -/
theorem batch_abort_on_wrong_count_c2_witness :
    ∃ e, batch_process_shapefiles
        (fun s => if s = "a.shp" then
            some [PyGeom.linestring [(0, 0), (1, 0)], PyGeom.linestring [(0, 1), (1, 1)]]
          else if s = "b.shp" then some [PyGeom.linestring [(0, 0), (1, 0)]]
          else none)
        ([("a.shp", [PyGeom.linestring [(0, 0), (2, 0)]])] ++
          ("b.shp", [PyGeom.linestring [(0, 0), (1, 0)]]) :: [("c.shp", [])]) =
      (processed_river_names
        (fun s => if s = "a.shp" then
            some [PyGeom.linestring [(0, 0), (1, 0)], PyGeom.linestring [(0, 1), (1, 1)]]
          else if s = "b.shp" then some [PyGeom.linestring [(0, 0), (1, 0)]]
          else none)
        [("a.shp", [PyGeom.linestring [(0, 0), (2, 0)]])], some e) :=
  batch_abort_on_wrong_count_c2 _ _ [("c.shp", [])] "b.shp" _ _
    (by
      intro p hp b hb
      rcases List.mem_singleton.mp hp with rfl
      simp only [] at hb
      rw [if_pos trivial] at hb
      rcases Option.some.inj hb with rfl
      rfl)
    (by decide)
    rfl
    (by decide)

end HydroTools
